import Mathlib

/-!
Verification of the cars-mesh data handlers and pipeline driver.

The development shallowly embeds the parts of the code base that the
properties below are about:

* `src/mesh3d/tools/handlers.py` — the `PointCloud` and `Mesh` data
  handlers (attribute predicates, gated accessors, colour normalisation);
* `src/mesh3d/mesh3d_reconstruct.py` — the `run` driver loop of the
  pipeline state machine and the final serialisation routing of `main`;
* `src/mesh-3d/mesh_3d/core/filter.py` — the outlier filtering steps and
  `local_density_analysis`.

A pandas `DataFrame` is modelled by its ordered column names together
with its number of rows: the predicates under study only test column
membership (`c in df.head()` tests membership among the columns) and
emptiness (`df.empty` is true when an axis has length zero).  Where a
function manipulates the numeric contents of colour columns, the values
are modelled exactly as rationals.  Python exceptions are modelled with
`Except String`.
-/

/-- Model of a pandas DataFrame at the schema level: ordered column
names and number of rows. -/
structure DataFrame where
  cols : List String
  nrows : Nat
deriving DecidableEq, Repr

/-- Column membership, the meaning of `c in df.head()` in the source. -/
def DataFrame.hasCol (df : DataFrame) (c : String) : Bool :=
  df.cols.contains c

/-- pandas `DataFrame.empty`: true when either axis has length zero. -/
def DataFrame.isEmpty (df : DataFrame) : Bool :=
  df.nrows == 0 || df.cols.isEmpty

/-- handlers.py line 32. -/
def COLORS : List String := ["red", "green", "blue", "nir"]

/-- handlers.py line 33. -/
def NORMALS : List String := ["n_x", "n_y", "n_z"]

/-- handlers.py line 34. -/
def UVS : List String :=
  ["uv1_row", "uv1_col", "uv2_row", "uv2_col", "uv3_row", "uv3_col"]

/-- `PointCloud` (handlers.py lines 37-61): its pandas DataFrame, which
may be unassigned (`None`).  The open3d mirror `o3d_pcd` is an external
geometry object; the data written to it by `set_o3d_colors` is modelled
separately by `normalizeColorsArr` below. -/
structure PointCloud where
  df : Option DataFrame
deriving DecidableEq, Repr

/-- Message of the `ValueError` raised by the `PointCloud` predicates
when `self.df is None` (handlers.py lines 191, 198, 205). -/
def notAssignedPcdMsg : String :=
  "Point cloud (pandas DataFrame) is not assigned."

/-- `PointCloud.has_colors` (handlers.py lines 188-193): raises when the
DataFrame is unassigned, otherwise true iff any colour column is
present. -/
def PointCloud.has_colors (p : PointCloud) : Except String Bool :=
  match p.df with
  | none => Except.error notAssignedPcdMsg
  | some df => Except.ok (COLORS.any fun c => df.hasCol c)

/-- `PointCloud.has_normals` (handlers.py lines 195-200): raises when the
DataFrame is unassigned, otherwise true iff all normal columns are
present. -/
def PointCloud.has_normals (p : PointCloud) : Except String Bool :=
  match p.df with
  | none => Except.error notAssignedPcdMsg
  | some df => Except.ok (NORMALS.all fun c => df.hasCol c)

/-- `PointCloud.has_classes` (handlers.py lines 202-207). -/
def PointCloud.has_classes (p : PointCloud) : Except String Bool :=
  match p.df with
  | none => Except.error notAssignedPcdMsg
  | some df => Except.ok (df.hasCol "classification")

/-- `PointCloud.get_colors` (handlers.py lines 176-180): evaluating
`self.has_colors` raises if the DataFrame is unassigned; a false
predicate raises `ValueError`; otherwise the present colour columns are
returned. -/
def PointCloud.get_colors (p : PointCloud) : Except String DataFrame :=
  match p.df with
  | none => Except.error notAssignedPcdMsg
  | some df =>
    if COLORS.any (fun c => df.hasCol c) then
      Except.ok { cols := COLORS.filter (fun c => df.hasCol c), nrows := df.nrows }
    else
      Except.error "Point cloud has no color."

/-- `PointCloud.get_normals` (handlers.py lines 182-186). -/
def PointCloud.get_normals (p : PointCloud) : Except String DataFrame :=
  match p.df with
  | none => Except.error notAssignedPcdMsg
  | some df =>
    if NORMALS.all (fun c => df.hasCol c) then
      Except.ok { cols := NORMALS, nrows := df.nrows }
    else
      Except.error "Point cloud has no normals."

/-- `PointCloud.set_df_from_vertices` (handlers.py lines 83-87): assigns
a DataFrame with exactly the columns x, y, z from an (n, 3) vertex
array. -/
def PointCloud.set_df_from_vertices (n : Nat) : PointCloud :=
  { df := some { cols := ["x", "y", "z"], nrows := n } }

/-- `Mesh` (handlers.py lines 222-239): an owned `PointCloud`, the face
DataFrame (may be `None`), and the image texture path, initialised to
`None` by the constructor.  The open3d mirror `o3d_mesh` is external. -/
structure Mesh where
  pcd : PointCloud
  df : Option DataFrame
  image_texture_path : Option String
deriving DecidableEq, Repr

/-- `Mesh.__init__` (handlers.py lines 225-239): the image texture path
always starts out `None`. -/
def Mesh.init (pcd mesh : Option DataFrame) : Mesh :=
  { pcd := { df := pcd }, df := mesh, image_texture_path := none }

/-- `Mesh.set_image_texture_path` (handlers.py lines 280-281). -/
def Mesh.set_image_texture_path (m : Mesh) (p : String) : Mesh :=
  { m with image_texture_path := some p }

/-- Message of the `ValueError` raised by the `Mesh` predicates when
`self.df is None` (handlers.py lines 426, 433, 452, 471, 478). -/
def notAssignedMeshMsg : String :=
  "Mesh (pandas DataFrame) is not assigned."

/-- `Mesh.has_triangles` (handlers.py lines 423-428): true iff all of
p1, p2, p3 are present and the face DataFrame is non-empty. -/
def Mesh.has_triangles (m : Mesh) : Except String Bool :=
  match m.df with
  | none => Except.error notAssignedMeshMsg
  | some df =>
    Except.ok ((["p1", "p2", "p3"].all fun c => df.hasCol c) && !df.isEmpty)

/-- `Mesh.has_texture` (handlers.py lines 430-447): true iff the image
texture path is set, all six UV columns are present, and the face
DataFrame is non-empty. -/
def Mesh.has_texture (m : Mesh) : Except String Bool :=
  match m.df with
  | none => Except.error notAssignedMeshMsg
  | some df =>
    Except.ok (m.image_texture_path.isSome
      && (UVS.all fun c => df.hasCol c) && !df.isEmpty)

/-- `Mesh.has_triangle_uvs` (handlers.py lines 449-466). -/
def Mesh.has_triangle_uvs (m : Mesh) : Except String Bool :=
  match m.df with
  | none => Except.error notAssignedMeshMsg
  | some df =>
    Except.ok ((UVS.all fun c => df.hasCol c) && !df.isEmpty)

/-- `Mesh.get_triangles` (handlers.py lines 408-409): the body is just
`return self.df[["p1", "p2", "p3"]]` with no capability check.  When
`self.df` is `None` the subscript fails with `TypeError`; when a triangle
column is missing pandas raises `KeyError`; otherwise the selection is
returned, empty or not. -/
def Mesh.get_triangles (m : Mesh) : Except String DataFrame :=
  match m.df with
  | none => Except.error "TypeError: NoneType object is not subscriptable"
  | some df =>
    if ["p1", "p2", "p3"].all (fun c => df.hasCol c) then
      Except.ok { cols := ["p1", "p2", "p3"], nrows := df.nrows }
    else
      Except.error "KeyError: columns not in index"

/-- C1: for every PointCloud with an assigned DataFrame, has_colors is
true iff at least one of red, green, blue, nir is present, has_normals is
true iff all of n_x, n_y, n_z are present, and both predicates are false
for a point cloud whose DataFrame was built from bare x, y, z vertices. -/
theorem c1_color_normal_predicates (df : DataFrame) :
    ((PointCloud.mk (some df)).has_colors = Except.ok true
      ↔ ∃ c ∈ COLORS, df.hasCol c = true)
    ∧ ((PointCloud.mk (some df)).has_normals = Except.ok true
      ↔ ∀ c ∈ NORMALS, df.hasCol c = true)
    ∧ (∀ n : Nat,
        (PointCloud.set_df_from_vertices n).has_colors = Except.ok false
        ∧ (PointCloud.set_df_from_vertices n).has_normals = Except.ok false) := by
  refine ⟨?_, ?_, ?_⟩
  · simp [PointCloud.has_colors, List.any_eq_true]
  · simp [PointCloud.has_normals, List.all_eq_true]
  · intro n
    constructor
    · simp [PointCloud.set_df_from_vertices, PointCloud.has_colors, COLORS,
        DataFrame.hasCol]
    · simp [PointCloud.set_df_from_vertices, PointCloud.has_normals, NORMALS,
        DataFrame.hasCol]

/-- C2: for every Mesh with an assigned face DataFrame, has_texture is
true iff the image texture path is set, all six UV columns are present
and the face table is non-empty; falsifying any of the three conjuncts
yields has_texture false. -/
theorem c2_has_texture_iff (pdf : Option DataFrame) (df : DataFrame)
    (tex : Option String) :
    ((Mesh.mk (PointCloud.mk pdf) (some df) tex).has_texture = Except.ok true
      ↔ tex ≠ none ∧ (∀ u ∈ UVS, df.hasCol u = true) ∧ df.isEmpty = false)
    ∧ ((tex = none ∨ (∃ u ∈ UVS, df.hasCol u = false) ∨ df.isEmpty = true)
      → (Mesh.mk (PointCloud.mk pdf) (some df) tex).has_texture
          = Except.ok false) := by
  have hbase : (Mesh.mk (PointCloud.mk pdf) (some df) tex).has_texture
      = Except.ok ((tex.isSome && (UVS.all fun c => df.hasCol c))
          && !df.isEmpty) := rfl
  constructor
  · rw [hbase]
    simp only [Except.ok.injEq, Bool.and_eq_true, Bool.not_eq_true',
      List.all_eq_true, Option.isSome_iff_ne_none, and_assoc]
  · intro h
    rw [hbase]
    rcases h with h | ⟨u, hu, hcol⟩ | h
    · simp [h]
    · have hall : (UVS.all fun c => df.hasCol c) = false := by
        rw [List.all_eq_false]
        exact ⟨u, hu, by simp [hcol]⟩
      simp [hall]
    · simp [h]

/-- C10: for the PointCloud whose DataFrame is unassigned, each of the
predicates has_colors, has_normals, has_classes raises a ValueError
saying the point cloud is not assigned, rather than returning false. -/
theorem c10_unassigned_predicates_raise :
    (PointCloud.mk none).has_colors = Except.error notAssignedPcdMsg
    ∧ (PointCloud.mk none).has_normals = Except.error notAssignedPcdMsg
    ∧ (PointCloud.mk none).has_classes = Except.error notAssignedPcdMsg := by
  exact ⟨rfl, rfl, rfl⟩

/-- Final serialisation routing of `main` (mesh3d_reconstruct.py lines
164-182): `extension = "ply" if out_mesh.df is not None else "laz"`, and
the entity goes through the mesh path exactly when the extension is
"ply", through the point-cloud path when it is "laz".  The intermediate
serialisation in `run` (lines 92-105) tests the same condition. -/
def outputExtension (m : Mesh) : String :=
  if m.df.isSome then "ply" else "laz"

/-- A face table that has the triangle columns but zero rows. -/
def emptyFaceDf : DataFrame := { cols := ["p1", "p2", "p3"], nrows := 0 }

/-- A mesh built by the constructor from an empty face table. -/
def meshEmptyFaces : Mesh := Mesh.init none (some emptyFaceDf)

/-- C3 counterexample: on a mesh whose face table has the triangle
columns but is empty, has_triangles is false yet get_triangles returns
the (empty) selection instead of raising. -/
theorem c3_counterexample_get_triangles_no_check :
    meshEmptyFaces.has_triangles = Except.ok false
    ∧ meshEmptyFaces.get_triangles = Except.ok emptyFaceDf := by
  exact ⟨rfl, rfl⟩

/-- C3 amended: get_colors and get_normals succeed exactly when the
corresponding predicate is true (and so fail with a descriptive error
whenever it is false or itself raises), while get_triangles performs no
capability check: it succeeds exactly when the face table is assigned
and has the three triangle columns, regardless of emptiness. -/
theorem c3_accessor_gating (p : PointCloud) (m : Mesh) :
    ((∃ d, p.get_colors = Except.ok d) ↔ p.has_colors = Except.ok true)
    ∧ ((∃ d, p.get_normals = Except.ok d) ↔ p.has_normals = Except.ok true)
    ∧ ((∃ d, m.get_triangles = Except.ok d)
        ↔ ∃ df, m.df = some df ∧ ∀ c ∈ ["p1", "p2", "p3"], df.hasCol c = true) := by
  obtain ⟨pdf⟩ := p
  obtain ⟨mp, mdf, mt⟩ := m
  refine ⟨?_, ?_, ?_⟩
  · cases pdf with
    | none => simp [PointCloud.get_colors, PointCloud.has_colors]
    | some df =>
      by_cases h : (COLORS.any fun c => df.hasCol c) = true
      · simp [PointCloud.get_colors, PointCloud.has_colors, h]
      · simp [PointCloud.get_colors, PointCloud.has_colors, h]
  · cases pdf with
    | none => simp [PointCloud.get_normals, PointCloud.has_normals]
    | some df =>
      by_cases h : (NORMALS.all fun c => df.hasCol c) = true
      · simp [PointCloud.get_normals, PointCloud.has_normals, h]
      · simp [PointCloud.get_normals, PointCloud.has_normals, h]
  · cases mdf with
    | none => simp [Mesh.get_triangles]
    | some df =>
      constructor
      · rintro ⟨d, hd⟩
        simp only [Mesh.get_triangles] at hd
        by_cases h : (["p1", "p2", "p3"].all fun c => df.hasCol c) = true
        · exact ⟨df, rfl, List.all_eq_true.mp h⟩
        · rw [if_neg h] at hd
          simp at hd
      · rintro ⟨df2, hdf2, hall⟩
        injection hdf2 with he
        subst he
        have h : (["p1", "p2", "p3"].all fun c => df.hasCol c) = true :=
          List.all_eq_true.mpr hall
        exact ⟨{ cols := ["p1", "p2", "p3"], nrows := df.nrows },
          by simp [Mesh.get_triangles, h]⟩

/-- C7 counterexample: a mesh whose face table is assigned but empty is
routed to the mesh serialisation path with extension ply, not to the
cloud-only path. -/
theorem c7_counterexample_empty_faces_routes_ply :
    emptyFaceDf.isEmpty = true
    ∧ meshEmptyFaces.df = some emptyFaceDf
    ∧ outputExtension meshEmptyFaces = "ply"
    ∧ "ply" ≠ "laz" := by
  exact ⟨rfl, rfl, rfl, by decide⟩

/-- C7 amended: the final entity is serialised via the cloud-only path
(laz) exactly when the face table is absent (None), and via the mesh
path (ply) exactly when a face table is assigned, even an empty one. -/
theorem c7_serialization_routing (m : Mesh) :
    (outputExtension m = "laz" ↔ m.df = none)
    ∧ (outputExtension m = "ply" ↔ m.df ≠ none) := by
  have hlp : ("laz" : String) ≠ "ply" := by decide
  have hpl : ("ply" : String) ≠ "laz" := by decide
  obtain ⟨mp, mdf, mt⟩ := m
  cases mdf with
  | none =>
    exact ⟨⟨fun _ => rfl, fun _ => rfl⟩,
      ⟨fun h => absurd h hlp, fun h => absurd rfl h⟩⟩
  | some df =>
    exact ⟨⟨fun h => absurd h hpl, fun h => absurd h (Option.some_ne_none df)⟩,
      ⟨fun _ => Option.some_ne_none df, fun _ => rfl⟩⟩

/-- One row of the (N, 3) RGB colours array that `set_o3d_colors` builds
from the red, green, blue columns (all three must be present, else the
source raises before normalising). -/
abbrev Rgb := Rat × Rat × Rat

/-- The scalar entries of the (N, 3) colours array, over which numpy
`arr.min()` and `arr.max()` range. -/
def flattenRgb : List Rgb → List Rat
  | [] => []
  | v :: rest => v.1 :: v.2.1 :: v.2.2 :: flattenRgb rest

/-- numpy `arr.min()` on a non-empty array: fold of `min` seeded with the
first entry (numpy raises on an empty array; callers guard that case). -/
def listMin : List Rat → Rat
  | [] => 0
  | x :: xs => xs.foldl min x

/-- numpy `arr.max()` on a non-empty array. -/
def listMax : List Rat → Rat
  | [] => 0
  | x :: xs => xs.foldl max x

/-- One row of `(colors_arr - min) / (max - min)`. -/
def normRgb (mn mx : Rat) (v : Rgb) : Rgb :=
  ((v.1 - mn) / (mx - mn), (v.2.1 - mn) / (mx - mn), (v.2.2 - mn) / (mx - mn))

/-- Colour normalisation of `PointCloud.set_o3d_colors` (handlers.py
lines 140-159) and `Mesh.set_o3d_vertex_colors` (lines 351-370), which
share this code: `np.divide(colors_arr - colors_arr.min(), colors_arr.max()
- colors_arr.min(), out=np.zeros_like(colors_arr), where=(colors_arr.max()
- colors_arr.min()) != 0.0)`.  The minimum and maximum are taken over the
WHOLE (N, 3) array, and the scalar `where` mask leaves the entire output
at its zero initialisation when the global maximum equals the global
minimum.  numpy raises on an empty array, modelled by `none`. -/
def normalizeColorsArr (arr : List Rgb) : Option (List Rgb) :=
  if arr = [] then none
  else if listMax (flattenRgb arr) - listMin (flattenRgb arr) = 0 then
    some (arr.map fun _ => ((0 : Rat), 0, 0))
  else
    some (arr.map (normRgb (listMin (flattenRgb arr)) (listMax (flattenRgb arr))))

/-- Modelled from the spec: per-channel normalisation, in which each of
the three channels is scaled by its own minimum and maximum across the
cloud, with 0 wherever a channel is constant.  Stated only to compare
the spec wording with `normalizeColorsArr`, the behaviour of the code. -/
def specPerChannelNormalize (arr : List Rgb) : Option (List Rgb) :=
  if arr = [] then none
  else
    let nrm := fun (xs : List Rat) (x : Rat) =>
      if listMax xs - listMin xs = 0 then (0 : Rat)
      else (x - listMin xs) / (listMax xs - listMin xs)
    some (arr.map fun v =>
      (nrm (arr.map fun w => w.1) v.1,
       nrm (arr.map fun w => w.2.1) v.2.1,
       nrm (arr.map fun w => w.2.2) v.2.2))

/-- A two-point cloud whose red channel spans 0..1 while green and blue
span 2..3. -/
def rgbCounterexample : List Rgb := [(0, 2, 2), (1, 3, 3)]

theorem foldl_min_le_init (xs : List Rat) (a : Rat) : xs.foldl min a ≤ a := by
  induction xs generalizing a with
  | nil => exact le_refl a
  | cons y ys ih => exact le_trans (ih (min a y)) (min_le_left a y)

theorem foldl_min_le_of_mem (xs : List Rat) (a x : Rat) (hx : x ∈ xs) :
    xs.foldl min a ≤ x := by
  induction xs generalizing a with
  | nil => cases hx
  | cons y ys ih =>
    rcases List.mem_cons.mp hx with h | h
    · subst h
      exact le_trans (foldl_min_le_init ys (min a x)) (min_le_right a x)
    · exact ih (min a y) h

theorem init_le_foldl_max (xs : List Rat) (a : Rat) : a ≤ xs.foldl max a := by
  induction xs generalizing a with
  | nil => exact le_refl a
  | cons y ys ih => exact le_trans (le_max_left a y) (ih (max a y))

theorem mem_le_foldl_max (xs : List Rat) (a x : Rat) (hx : x ∈ xs) :
    x ≤ xs.foldl max a := by
  induction xs generalizing a with
  | nil => cases hx
  | cons y ys ih =>
    rcases List.mem_cons.mp hx with h | h
    · subst h
      exact le_trans (le_max_right a x) (init_le_foldl_max ys (max a x))
    · exact ih (max a y) h

theorem listMin_le_of_mem (l : List Rat) (x : Rat) (hx : x ∈ l) :
    listMin l ≤ x := by
  cases l with
  | nil => cases hx
  | cons y ys =>
    rcases List.mem_cons.mp hx with h | h
    · subst h
      exact foldl_min_le_init ys x
    · exact foldl_min_le_of_mem ys y x h

theorem le_listMax_of_mem (l : List Rat) (x : Rat) (hx : x ∈ l) :
    x ≤ listMax l := by
  cases l with
  | nil => cases hx
  | cons y ys =>
    rcases List.mem_cons.mp hx with h | h
    · subst h
      exact init_le_foldl_max ys x
    · exact mem_le_foldl_max ys y x h

theorem mem_flattenRgb (arr : List Rgb) (q : Rat) :
    q ∈ flattenRgb arr ↔ ∃ v ∈ arr, q = v.1 ∨ q = v.2.1 ∨ q = v.2.2 := by
  induction arr with
  | nil => simp [flattenRgb]
  | cons v rest ih =>
    simp only [flattenRgb, List.mem_cons, ih]
    constructor
    · rintro (h | h | h | ⟨w, hw, hc⟩)
      · exact ⟨v, Or.inl rfl, Or.inl h⟩
      · exact ⟨v, Or.inl rfl, Or.inr (Or.inl h)⟩
      · exact ⟨v, Or.inl rfl, Or.inr (Or.inr h)⟩
      · exact ⟨w, Or.inr hw, hc⟩
    · rintro ⟨w, hw | hw, hc⟩
      · subst hw
        rcases hc with h | h | h
        · exact Or.inl h
        · exact Or.inr (Or.inl h)
        · exact Or.inr (Or.inr (Or.inl h))
      · exact Or.inr (Or.inr (Or.inr ⟨w, hw, hc⟩))

theorem norm_component_bounds (mn mx x : Rat) (h1 : mn ≤ x) (h2 : x ≤ mx)
    (h3 : mn < mx) : 0 ≤ (x - mn) / (mx - mn) ∧ (x - mn) / (mx - mn) ≤ 1 := by
  have hd : 0 < mx - mn := sub_pos.mpr h3
  constructor
  · exact div_nonneg (sub_nonneg.mpr h1) (le_of_lt hd)
  · rw [div_le_one hd]
    exact sub_le_sub_right h2 mn

/-- C4 counterexample: on a cloud whose channels have distinct ranges,
the code normalises with the global minimum and maximum of the whole
array, not with each channel's own; the per-channel reading of the claim
gives a different output. -/
theorem c4_counterexample_global_not_per_channel :
    normalizeColorsArr rgbCounterexample
      = some [(0, 2/3, 2/3), (1/3, 1, 1)]
    ∧ specPerChannelNormalize rgbCounterexample
      = some [(0, 0, 0), (1, 1, 1)]
    ∧ normalizeColorsArr rgbCounterexample
      ≠ specPerChannelNormalize rgbCounterexample := by
  have h1 : normalizeColorsArr rgbCounterexample
      = some [(0, 2/3, 2/3), (1/3, 1, 1)] := by
    norm_num [normalizeColorsArr, rgbCounterexample, flattenRgb, listMin, listMax,
      normRgb, min_def, max_def]
    intro h
    simp at h
  have h2 : specPerChannelNormalize rgbCounterexample
      = some [(0, 0, 0), (1, 1, 1)] := by
    norm_num [specPerChannelNormalize, rgbCounterexample, flattenRgb, listMin, listMax,
      min_def, max_def]
    intro h
    simp at h
  refine ⟨h1, h2, ?_⟩
  rw [h1, h2]
  intro hc
  simp only [Option.some.injEq, List.cons.injEq, Prod.mk.injEq] at hc
  norm_num at hc

/-- C4 amended: colour values written to the geometry-engine-facing
representation are normalised with the global minimum and maximum over
the whole (N, 3) array; when the global maximum equals the global
minimum (in particular when all colour values of the cloud are equal)
the output is all zeros rather than a division by zero; every value the
normalisation produces lies in [0, 1]. -/
theorem c4_normalization_global_minmax (arr : List Rgb) (h : arr ≠ []) :
    (listMax (flattenRgb arr) = listMin (flattenRgb arr)
      → normalizeColorsArr arr = some (arr.map fun _ => ((0 : Rat), 0, 0)))
    ∧ (listMax (flattenRgb arr) ≠ listMin (flattenRgb arr)
      → normalizeColorsArr arr
          = some (arr.map
              (normRgb (listMin (flattenRgb arr)) (listMax (flattenRgb arr)))))
    ∧ (∀ out, normalizeColorsArr arr = some out
        → ∀ q ∈ flattenRgb out, 0 ≤ q ∧ q ≤ 1) := by
  refine ⟨?_, ?_, ?_⟩
  · intro hmx
    unfold normalizeColorsArr
    rw [if_neg h, if_pos (sub_eq_zero.mpr hmx)]
  · intro hmx
    unfold normalizeColorsArr
    rw [if_neg h, if_neg (sub_ne_zero.mpr hmx)]
  · intro out hout q hq
    by_cases hz : listMax (flattenRgb arr) - listMin (flattenRgb arr) = 0
    · unfold normalizeColorsArr at hout
      rw [if_neg h, if_pos hz] at hout
      injection hout with he
      subst he
      rw [mem_flattenRgb] at hq
      obtain ⟨v, hv, hcomp⟩ := hq
      obtain ⟨u, hu, rfl⟩ := List.mem_map.mp hv
      rcases hcomp with h1 | h1 | h1 <;> subst h1 <;>
        exact ⟨le_refl 0, by norm_num⟩
    · unfold normalizeColorsArr at hout
      rw [if_neg h, if_neg hz] at hout
      injection hout with he
      subst he
      rw [mem_flattenRgb] at hq
      obtain ⟨v, hv, hcomp⟩ := hq
      obtain ⟨u, hu, rfl⟩ := List.mem_map.mp hv
      have hm1 : u.1 ∈ flattenRgb arr :=
        (mem_flattenRgb arr u.1).mpr ⟨u, hu, Or.inl rfl⟩
      have hm2 : u.2.1 ∈ flattenRgb arr :=
        (mem_flattenRgb arr u.2.1).mpr ⟨u, hu, Or.inr (Or.inl rfl)⟩
      have hm3 : u.2.2 ∈ flattenRgb arr :=
        (mem_flattenRgb arr u.2.2).mpr ⟨u, hu, Or.inr (Or.inr rfl)⟩
      have hle : listMin (flattenRgb arr) ≤ listMax (flattenRgb arr) :=
        le_trans (listMin_le_of_mem _ _ hm1) (le_listMax_of_mem _ _ hm1)
      have hlt : listMin (flattenRgb arr) < listMax (flattenRgb arr) :=
        lt_of_le_of_ne hle (fun he => (sub_ne_zero.mp hz) he.symm)
      rcases hcomp with h1 | h1 | h1 <;> subst h1
      · exact norm_component_bounds _ _ _ (listMin_le_of_mem _ _ hm1)
          (le_listMax_of_mem _ _ hm1) hlt
      · exact norm_component_bounds _ _ _ (listMin_le_of_mem _ _ hm2)
          (le_listMax_of_mem _ _ hm2) hlt
      · exact norm_component_bounds _ _ _ (listMin_le_of_mem _ _ hm3)
          (le_listMax_of_mem _ _ hm3) hlt

/-- C4 amended theorem applied to the concrete two-point cloud: the
value 1/3 produced by the global normalisation lies in [0, 1]. -/
theorem c4_normalization_global_minmax_witness :
    (0 : Rat) ≤ 1/3 ∧ (1/3 : Rat) ≤ 1 := by
  have hout : normalizeColorsArr rgbCounterexample
      = some [(0, 2/3, 2/3), (1/3, 1, 1)] := by
    norm_num [normalizeColorsArr, rgbCounterexample, flattenRgb, listMin, listMax,
      normRgb, min_def, max_def]
    intro h
    simp at h
  have hmem : (1/3 : Rat) ∈ flattenRgb [(0, 2/3, 2/3), (1/3, 1, 1)] := by
    norm_num [flattenRgb]
  exact (c4_normalization_global_minmax rgbCounterexample
    (by simp [rgbCounterexample])).2.2 _ hout _ hmem

/-- pandas `df.loc[idx]` row selection by the positional labels open3d
returns: raises `KeyError` when a label is out of range, otherwise
selects the rows in order (filter.py lines 85 and 208). -/
def dfLoc {α : Type} [Inhabited α] (rows : List α) (idx : List Nat) :
    Except String (List α) :=
  if idx.all (fun i => decide (i < rows.length)) then
    Except.ok (idx.map fun i => rows.getD i default)
  else
    Except.error "KeyError: index out of bounds"

/-- The bare `raise` with no active exception on filter.py lines 90 and
213 surfaces as a `RuntimeError`. -/
def emptyFilterOutputMsg : String :=
  "RuntimeError: No active exception to re-raise"

/-- `radius_filtering_outliers_o3` (filter.py lines 40-100): the outlier
detection itself is external (`o3d.geometry.PointCloud.remove_radius_outlier`),
so the index list of surviving points is a parameter; the function keeps
the selected rows, and raises when the selection is empty.  The
`serialize` debug flag defaults to False and is not modelled. -/
def radius_filtering_outliers_o3 {α : Type} [Inhabited α] (df_pcd : List α)
    (ind_valid_pts : List Nat) : Except String (List α) :=
  match dfLoc df_pcd ind_valid_pts with
  | Except.error e => Except.error e
  | Except.ok out =>
    if out.isEmpty then Except.error emptyFilterOutputMsg else Except.ok out

/-- `statistical_filtering_outliers_o3d` (filter.py lines 158-223): same
structure as the radius filter, with
`o3d.geometry.PointCloud.remove_statistical_outlier` supplying the index
list of surviving points. -/
def statistical_filtering_outliers_o3d {α : Type} [Inhabited α] (df_pcd : List α)
    (ind_valid_pts : List Nat) : Except String (List α) :=
  match dfLoc df_pcd ind_valid_pts with
  | Except.error e => Except.error e
  | Except.ok out =>
    if out.isEmpty then Except.error emptyFilterOutputMsg else Except.ok out

/-- C6: whenever an outlier filtering step (radius or statistical) would
produce an empty point cloud, it raises at the point of detection and
returns no value: an empty selection yields an error, and a successful
return is never empty (so there is no fallback to the pre-step data). -/
theorem c6_empty_filter_output_is_fatal {α : Type} [Inhabited α]
    (df_pcd : List α) (ind : List Nat) :
    (dfLoc df_pcd ind = Except.ok []
      → radius_filtering_outliers_o3 df_pcd ind
          = Except.error emptyFilterOutputMsg
        ∧ statistical_filtering_outliers_o3d df_pcd ind
          = Except.error emptyFilterOutputMsg)
    ∧ (∀ out, radius_filtering_outliers_o3 df_pcd ind = Except.ok out
        → out ≠ [])
    ∧ (∀ out, statistical_filtering_outliers_o3d df_pcd ind = Except.ok out
        → out ≠ []) := by
  refine ⟨fun h => ?_, fun out hout => ?_, fun out hout => ?_⟩
  · constructor
    · unfold radius_filtering_outliers_o3
      rw [h]
      rfl
    · unfold statistical_filtering_outliers_o3d
      rw [h]
      rfl
  · unfold radius_filtering_outliers_o3 at hout
    cases hdl : dfLoc df_pcd ind with
    | error e => rw [hdl] at hout; simp at hout
    | ok l =>
      rw [hdl] at hout
      dsimp only at hout
      by_cases hl : l.isEmpty
      · rw [if_pos hl] at hout
        simp at hout
      · rw [if_neg hl] at hout
        injection hout with he
        subst he
        intro hc
        subst hc
        exact hl rfl
  · unfold statistical_filtering_outliers_o3d at hout
    cases hdl : dfLoc df_pcd ind with
    | error e => rw [hdl] at hout; simp at hout
    | ok l =>
      rw [hdl] at hout
      dsimp only at hout
      by_cases hl : l.isEmpty
      · rw [if_pos hl] at hout
        simp at hout
      · rw [if_neg hl] at hout
        injection hout with he
        subst he
        intro hc
        subst hc
        exact hl rfl

/-- C6 applied to a concrete one-point cloud whose filtering keeps no
index: both filters raise instead of returning the empty cloud. -/
theorem c6_empty_filter_output_is_fatal_witness :
    radius_filtering_outliers_o3 [((0 : Rat), (0 : Rat), (0 : Rat))] []
      = Except.error emptyFilterOutputMsg
    ∧ statistical_filtering_outliers_o3d [((0 : Rat), (0 : Rat), (0 : Rat))] []
      = Except.error emptyFilterOutputMsg :=
  (c6_empty_filter_output_is_fatal [((0 : Rat), (0 : Rat), (0 : Rat))] []).1 rfl

/-- `local_density_analysis` (filter.py lines 226-282): the body queries
a KDTree for each point's neighbour distances (external), accumulates the
indices whose outlier probability exceeds 0.6, drops those rows, and
prints two averages — but it ends without a `return` statement, so the
call evaluates to Python `None` whatever the dropped-row computation
produced.  Only the returned value is modelled; the docstring of the
function claims a filtered DataFrame is returned. -/
def local_density_analysis {α : Type} (df_pcd : List α) : Option (List α) :=
  let _ := df_pcd
  none

/-- C9 at the failing input: on a non-empty point cloud the registered
method local_density_analysis returns None rather than an output
entity, contradicting its own docstring and the step contract. -/
theorem c9_local_density_analysis_returns_none :
    ([((0 : Rat), (0 : Rat), (0 : Rat)), ((1 : Rat), (1 : Rat), (1 : Rat))]
        : List (Rat × Rat × Rat)) ≠ []
    ∧ local_density_analysis
        [((0 : Rat), (0 : Rat), (0 : Rat)), ((1 : Rat), (1 : Rat), (1 : Rat))]
      = none := by
  exact ⟨by simp, rfl⟩

/-- One configured step record of `cfg["state_machine"]`
(mesh3d_reconstruct.py lines 62-73): action name, method name, and the
optional `save_output` flag (`none` models an absent key). -/
structure Step where
  action : String
  method : String
  save_output : Option Bool
deriving DecidableEq, Repr

/-- The configuration fields `run` reads: the ordered step list and the
output directory. -/
structure Config where
  state_machine : List Step
  output_dir : String
deriving DecidableEq, Repr

/-- Observable outcome of `run` (mesh3d_reconstruct.py lines 34-113):
warnings logged, intermediate files written (in order), the steps handed
to `Mesh3DMachine.run` (in order), and the returned data entity. -/
structure RunResult where
  warnings : List String
  files : List String
  transitions : List Step
  result : Mesh
deriving DecidableEq, Repr

/-- Warning logged for an empty step list (mesh3d_reconstruct.py line 53). -/
def emptyMachineWarning : String :=
  "State machine is empty. Returning the initial data."

/-- Warning logged when the first step saves output into a non-empty
intermediate directory (mesh3d_reconstruct.py lines 79-83). -/
def dirOverwriteWarning (folder : String) : String :=
  "Directory " ++ folder ++ " is not empty. Some files might be overwritten."

/-- Python `str.zfill`: left-pad with zeros to the given width. -/
def zfill (s : String) (width : Nat) : String :=
  if s.length < width then
    String.mk (List.replicate (width - s.length) '0') ++ s
  else s

/-- The dedicated subdirectory for intermediate results
(mesh3d_reconstruct.py lines 75-77). -/
def intermediateFolder (outputDir : String) : String :=
  outputDir ++ "/intermediate_results"

/-- Intermediate file path for step k (0-based):
`<NN>_<action>_<method>.<ext>` with NN the zero-padded 1-based ordinal
and the extension chosen from the entity held after the step
(mesh3d_reconstruct.py lines 86-105). -/
def intermediateFilepath (outputDir : String) (k : Nat) (step : Step)
    (mesh : Mesh) : String :=
  intermediateFolder outputDir ++ "/" ++ zfill (toString (k + 1)) 2
    ++ "_" ++ step.action ++ "_" ++ step.method ++ "." ++ outputExtension mesh

/-- The loop body of `run` (mesh3d_reconstruct.py lines 62-111), from
step index k on.  `stepRun` abstracts `Mesh3DMachine.run` (the state
machine lives outside the steered sources; the theorems hold for every
behaviour of it); `dirNonEmpty` is the `os.listdir` observation of the
intermediate directory at the k = 0 check.  Each iteration executes the
step, then, when the step requests saving, warns at k = 0 on a non-empty
directory and serialises the held entity. -/
def runSteps (stepRun : Step → Mesh → Mesh) (dirNonEmpty : Bool)
    (outputDir : String) : Nat → Mesh → List Step → RunResult
  | _, mesh, [] => { warnings := [], files := [], transitions := [], result := mesh }
  | k, mesh, step :: rest =>
    let mesh2 := stepRun step mesh
    let tail := runSteps stepRun dirNonEmpty outputDir (k + 1) mesh2 rest
    let warns : List String :=
      if step.save_output = some true ∧ k = 0 ∧ dirNonEmpty = true then
        [dirOverwriteWarning (intermediateFolder outputDir)]
      else []
    let files : List String :=
      if step.save_output = some true then
        [intermediateFilepath outputDir k step mesh2]
      else []
    { warnings := warns ++ tail.warnings, files := files ++ tail.files,
      transitions := step :: tail.transitions, result := tail.result }

/-- `run` (mesh3d_reconstruct.py lines 34-113): an empty step list only
logs a warning and returns the machine's held entity; otherwise the
steps run in order through the loop.  `check_transitions` (line 59, in
the state machine outside the steered sources) is modelled as passing:
the properties below quantify over every step behaviour. -/
def runMachine (stepRun : Step → Mesh → Mesh) (dirNonEmpty : Bool)
    (cfg : Config) (mesh0 : Mesh) : RunResult :=
  if cfg.state_machine = [] then
    { warnings := [emptyMachineWarning], files := [], transitions := [],
      result := mesh0 }
  else
    runSteps stepRun dirNonEmpty cfg.output_dir 0 mesh0 cfg.state_machine

/-- C5: with an empty configured step list the machine performs no
transitions, writes no intermediate file, emits the empty-machine
warning, and returns the input entity itself. -/
theorem c5_empty_pipeline_is_noop (stepRun : Step → Mesh → Mesh)
    (dirNonEmpty : Bool) (outputDir : String) (mesh0 : Mesh) :
    runMachine stepRun dirNonEmpty
        { state_machine := [], output_dir := outputDir } mesh0
      = { warnings := [emptyMachineWarning], files := [], transitions := [],
          result := mesh0 } := rfl

theorem runSteps_files_cons (stepRun : Step → Mesh → Mesh) (d : Bool)
    (o : String) (k : Nat) (mesh : Mesh) (s : Step) (rest : List Step) :
    (runSteps stepRun d o k mesh (s :: rest)).files
      = (if s.save_output = some true
          then [intermediateFilepath o k s (stepRun s mesh)] else [])
        ++ (runSteps stepRun d o (k + 1) (stepRun s mesh) rest).files := rfl

theorem runSteps_warnings_cons (stepRun : Step → Mesh → Mesh) (d : Bool)
    (o : String) (k : Nat) (mesh : Mesh) (s : Step) (rest : List Step) :
    (runSteps stepRun d o k mesh (s :: rest)).warnings
      = (if s.save_output = some true ∧ k = 0 ∧ d = true
          then [dirOverwriteWarning (intermediateFolder o)] else [])
        ++ (runSteps stepRun d o (k + 1) (stepRun s mesh) rest).warnings := rfl

theorem runSteps_transitions_eq (stepRun : Step → Mesh → Mesh) (d : Bool)
    (o : String) :
    ∀ (steps : List Step) (k : Nat) (mesh : Mesh),
      (runSteps stepRun d o k mesh steps).transitions = steps := by
  intro steps
  induction steps with
  | nil => intro k mesh; rfl
  | cons s rest ih =>
    intro k mesh
    show s :: (runSteps stepRun d o (k + 1) (stepRun s mesh) rest).transitions
      = s :: rest
    rw [ih (k + 1) (stepRun s mesh)]

theorem runSteps_result_eq (stepRun : Step → Mesh → Mesh) (d : Bool)
    (o : String) :
    ∀ (steps : List Step) (k : Nat) (mesh : Mesh),
      (runSteps stepRun d o k mesh steps).result
        = steps.foldl (fun m s => stepRun s m) mesh := by
  intro steps
  induction steps with
  | nil => intro k mesh; rfl
  | cons s rest ih =>
    intro k mesh
    show (runSteps stepRun d o (k + 1) (stepRun s mesh) rest).result = _
    rw [ih (k + 1) (stepRun s mesh)]
    rfl

theorem runSteps_warnings_pos (stepRun : Step → Mesh → Mesh) (d : Bool)
    (o : String) :
    ∀ (steps : List Step) (k : Nat) (mesh : Mesh), k ≠ 0 →
      (runSteps stepRun d o k mesh steps).warnings = [] := by
  intro steps
  induction steps with
  | nil => intro k mesh _; rfl
  | cons s rest ih =>
    intro k mesh hk
    have h1 : ¬ (s.save_output = some true ∧ k = 0 ∧ d = true) := by
      rintro ⟨-, hk0, -⟩
      exact hk hk0
    rw [runSteps_warnings_cons, if_neg h1,
      ih (k + 1) (stepRun s mesh) (Nat.succ_ne_zero k)]
    rfl

theorem runSteps_files_mem (stepRun : Step → Mesh → Mesh) (d : Bool)
    (o : String) :
    ∀ (steps : List Step) (k0 : Nat) (mesh : Mesh) (k : Nat) (step : Step),
      steps.get? k = some step → step.save_output = some true →
      intermediateFilepath o (k0 + k) step
          ((steps.take (k + 1)).foldl (fun m s => stepRun s m) mesh)
        ∈ (runSteps stepRun d o k0 mesh steps).files := by
  intro steps
  induction steps with
  | nil =>
    intro k0 mesh k step h
    cases h
  | cons s rest ih =>
    intro k0 mesh k step hget hsave
    rw [runSteps_files_cons]
    cases k with
    | zero =>
      injection hget with he
      subst he
      rw [if_pos hsave]
      apply List.mem_append_left
      simp
    | succ j =>
      have hmem := ih (k0 + 1) (stepRun s mesh) j step hget hsave
      apply List.mem_append_right
      have harith : k0 + (j + 1) = k0 + 1 + j := by omega
      rw [harith, List.take_succ_cons, List.foldl_cons]
      exact hmem

/-- C8 amended: for every non-empty configured step list, all steps run;
whenever step k requests intermediate persistence, the entity held after
it is serialised to
`<output_dir>/intermediate_results/<NN>_<action>_<method>.<ext>` with NN
the zero-padded 1-based ordinal; and the non-empty-directory warning is
emitted precisely when the FIRST configured step (index 0) saves output
and the directory is non-empty — a first intermediate write at any later
step emits no warning.  Execution continues in every case. -/
theorem c8_intermediate_persistence (stepRun : Step → Mesh → Mesh)
    (dirNonEmpty : Bool) (cfg : Config) (mesh0 : Mesh)
    (h : cfg.state_machine ≠ []) :
    (runMachine stepRun dirNonEmpty cfg mesh0).transitions = cfg.state_machine
    ∧ (∀ k step, cfg.state_machine.get? k = some step
        → step.save_output = some true
        → intermediateFilepath cfg.output_dir k step
            ((cfg.state_machine.take (k + 1)).foldl
              (fun m s => stepRun s m) mesh0)
          ∈ (runMachine stepRun dirNonEmpty cfg mesh0).files)
    ∧ ((runMachine stepRun dirNonEmpty cfg mesh0).warnings
        = match cfg.state_machine with
          | [] => []
          | s :: _ =>
            if s.save_output = some true ∧ dirNonEmpty = true
            then [dirOverwriteWarning (intermediateFolder cfg.output_dir)]
            else []) := by
  obtain ⟨steps, odir⟩ := cfg
  have hrm : runMachine stepRun dirNonEmpty ⟨steps, odir⟩ mesh0
      = runSteps stepRun dirNonEmpty odir 0 mesh0 steps := by
    unfold runMachine
    rw [if_neg h]
  refine ⟨?_, ?_, ?_⟩
  · rw [hrm]
    exact runSteps_transitions_eq stepRun dirNonEmpty odir steps 0 mesh0
  · intro k step hget hsave
    rw [hrm]
    have hm := runSteps_files_mem stepRun dirNonEmpty odir steps 0 mesh0 k
      step hget hsave
    simpa using hm
  · rw [hrm]
    cases steps with
    | nil => exact absurd rfl h
    | cons s rest =>
      rw [runSteps_warnings_cons, runSteps_warnings_pos stepRun dirNonEmpty
        odir rest 1 (stepRun s mesh0) (Nat.succ_ne_zero 0)]
      simp

/-- A filtering step that does not ask for intermediate persistence. -/
def stepFilterRadius : Step :=
  { action := "filter", method := "radius_o3d", save_output := none }

/-- A filtering step that asks for intermediate persistence. -/
def stepFilterStatistical : Step :=
  { action := "filter", method := "statistical_o3d", save_output := some true }

/-- A two-step configuration whose first intermediate write happens at
the second step. -/
def cfgTwoSteps : Config :=
  { state_machine := [stepFilterRadius, stepFilterStatistical],
    output_dir := "out" }

/-- A point-cloud-only entity: three x, y, z vertices and no face table. -/
def meshPcdOnly : Mesh :=
  Mesh.init (some { cols := ["x", "y", "z"], nrows := 3 }) none

/-- C8 amended theorem applied to the concrete two-step run. -/
theorem c8_intermediate_persistence_witness :
    (runMachine (fun _ m => m) true cfgTwoSteps meshPcdOnly).transitions
      = cfgTwoSteps.state_machine :=
  (c8_intermediate_persistence (fun _ m => m) true cfgTwoSteps meshPcdOnly
    (by simp [cfgTwoSteps])).1

/-- C8 counterexample: in the two-step run whose FIRST intermediate
write happens at the second step over a non-empty intermediate
directory, the file is written with its deterministic name but NO
warning is emitted, against the claim that the first intermediate write
into a non-empty directory warns. -/
theorem c8_counterexample_no_warning_on_late_first_write :
    (runMachine (fun _ m => m) true cfgTwoSteps meshPcdOnly).files
      = ["out/intermediate_results/02_filter_statistical_o3d.laz"]
    ∧ (runMachine (fun _ m => m) true cfgTwoSteps meshPcdOnly).warnings
      = [] := by
  constructor
  · rfl
  · rfl

/-- C1 theorem applied to a DataFrame carrying a red column. -/
theorem c1_color_normal_predicates_witness :
    (PointCloud.mk
        (some { cols := ["x", "y", "z", "red"], nrows := 2 })).has_colors
      = Except.ok true :=
  (c1_color_normal_predicates { cols := ["x", "y", "z", "red"], nrows := 2 }).1.mpr
    ⟨"red", by decide, by decide⟩

/-- A face table carrying triangle vertex indices and all six UV
columns, with one row. -/
def texturedFaceDf : DataFrame :=
  { cols := ["p1", "p2", "p3", "uv1_row", "uv1_col", "uv2_row", "uv2_col",
      "uv3_row", "uv3_col"],
    nrows := 1 }

/-- C2 theorem applied to a fully textured mesh. -/
theorem c2_has_texture_iff_witness :
    (Mesh.mk (PointCloud.mk none) (some texturedFaceDf)
        (some "texture.png")).has_texture
      = Except.ok true :=
  (c2_has_texture_iff none texturedFaceDf (some "texture.png")).1.mpr
    ⟨by simp, by decide, by decide⟩

/-- C3 amended theorem applied to a point cloud carrying normals: the
successful accessor implies the true predicate. -/
theorem c3_accessor_gating_witness :
    (PointCloud.mk
        (some { cols := ["x", "y", "z", "n_x", "n_y", "n_z"], nrows := 1 })
      ).has_normals = Except.ok true :=
  (c3_accessor_gating
    (PointCloud.mk
      (some { cols := ["x", "y", "z", "n_x", "n_y", "n_z"], nrows := 1 }))
    meshEmptyFaces).2.1.mp ⟨{ cols := NORMALS, nrows := 1 }, rfl⟩

/-- C5 theorem applied to a concrete empty configuration. -/
theorem c5_empty_pipeline_is_noop_witness :
    runMachine (fun _ m => m) false
        { state_machine := [], output_dir := "out" } meshPcdOnly
      = { warnings := [emptyMachineWarning], files := [], transitions := [],
          result := meshPcdOnly } :=
  c5_empty_pipeline_is_noop (fun _ m => m) false "out" meshPcdOnly

/-- C7 amended theorem applied to a point-cloud-only entity. -/
theorem c7_serialization_routing_witness :
    outputExtension meshPcdOnly = "laz" :=
  (c7_serialization_routing meshPcdOnly).1.mpr rfl
